import Mathlib

set_option maxRecDepth 20000

/-!
Verification of the fund-rotation orchestrator (`SonicSmartWallet` and the
`main` rotation loop) against its natural-language specification.

The TypeScript source is shallowly embedded below.  External collaborators
(the thirdweb wallet, the chain, the ethers ABI encoder) are modelled as
explicit inputs in a `WalletEnv`: each on-chain read appears as an `Option`
result (`none` models the read throwing) and each ABI encoder appears as an
oracle of type `String → String → String → Option String` (`none` models
`encodeFunctionData` throwing).  Each wallet operation returns the list of
submissions (`sendTransaction` / `sendBatchTransaction` calls) it performed
together with its result (`Except.error` models a thrown `Error`).
-/

/-- Value of an ASCII digit character, as in `BigInt` parsing of a digit
string: `'0'` ↦ 0, …, `'9'` ↦ 9. -/
def digitVal (c : Char) : Nat := c.toNat - 48

/-- Numeric value of a digit string, most significant digit first
(`BigInt("…")` on an all-digit string). -/
def digitsToNat (s : List Char) : Nat :=
  s.foldl (fun acc c => 10 * acc + digitVal c) 0

/-- Leading-sign split performed by the regex `^(-?)…$` of ethers v6
`FixedNumber.fromString`: strips one optional leading minus sign. -/
def splitSign : List Char → Bool × List Char
  | '-' :: rest => (true, rest)
  | s => (false, s)

/-- Body split performed by the regex `^…([0-9]*)\.?([0-9]*)$` of ethers v6
`FixedNumber.fromString`: a maximal digit run, an optional dot, and a
digit run reaching the end of the string; anything else fails to match. -/
def decomposeBody (s : List Char) : Option (List Char × List Char) :=
  let whole := s.takeWhile Char.isDigit
  match s.dropWhile Char.isDigit with
  | [] => some (whole, [])
  | '.' :: frac => if frac.all Char.isDigit then some (whole, frac) else none
  | _ => none

/-- Modelled external collaborator: `ethers.parseUnits(value, decimals)` of
ethers v6, i.e. `FixedNumber.fromString(value, { decimals, width: 512 }).value`.
`none` models a thrown error:
the regex mismatch or empty value (`invalid FixedNumber string value`),
a format with more than 80 decimals (`invalid FixedNumber decimals`),
a fractional part longer than `decimals` (`too many decimals for format`),
or a scaled value outside the signed 512-bit range (`overflow`).
On success the result is the exact scaled integer
`sign * BigInt(whole ++ frac ++ padding)`. -/
def parseUnits (value : String) (decimals : Nat) : Option Int :=
  match splitSign value.data with
  | (neg, body) =>
    match decomposeBody body with
    | none => none
    | some (whole, frac) =>
      if whole.length + frac.length == 0 then none
      else if 80 < decimals then none
      else if decimals < frac.length then none
      else
        let mag : Nat :=
          digitsToNat (whole ++ (frac ++ List.replicate (decimals - frac.length) '0'))
        let v : Int := if neg then -(mag : Int) else (mag : Int)
        if -(2 ^ 511) ≤ v ∧ v < 2 ^ 511 then some v else none

/-- One trimming pass of ethers v6 `FixedNumber`'s `toString` helper: drop
leading `'0'` characters while the next character is not the decimal point
(used on the reversed string for the trailing trim). -/
def trimEdgeZeros : List Char → List Char
  | '0' :: c :: rest => if c = '.' then '0' :: c :: rest else trimEdgeZeros (c :: rest)
  | l => l

/-- Modelled external collaborator: `ethers.formatUnits(value, decimals)` of
ethers v6 (the `toString` helper of `FixedNumber`): render the magnitude,
pad so a whole digit exists, insert the decimal point, then trim leading
zeros of the whole part and trailing zeros of the fractional part, keeping
at least one digit on each side of the point.  Format asserts (decimals
cap, 512-bit range) are omitted: the source only calls it with
`decimals = 6` on in-range balances. -/
def formatUnits (val : Int) (decimals : Nat) : String :=
  let negative := if val < 0 then "-" else ""
  let s := (toString val.natAbs).data
  if decimals == 0 then negative ++ String.mk s
  else
    let s := List.replicate (decimals + 1 - s.length) '0' ++ s
    let index := s.length - decimals
    let str := s.take index ++ '.' :: s.drop index
    let str := trimEdgeZeros str
    let str := (trimEdgeZeros str.reverse).reverse
    negative ++ String.mk str

/-- `SonicSmartWallet.getTokenAmount`, numeric value of the returned string.
`decResult` is the outcome of the `decimals({contract})` read on the token
(`none` models the read throwing).  The source wraps the read and the
conversion in one `try`: any failure falls through to
`ethers.parseUnits(amount, 6)`, whose own failure propagates (`none`). -/
def getTokenAmountVal (decResult : Option Nat) (amount : String) : Option Int :=
  match decResult with
  | some tokenDecimals =>
    match parseUnits amount tokenDecimals with
    | some v => some v
    | none => parseUnits amount 6
  | none => parseUnits amount 6

/-- `SonicSmartWallet.getTokenAmount` proper: the base-unit amount as the
decimal string `BigInt.toString` produces. -/
def getTokenAmount (decResult : Option Nat) (amount : String) : Option String :=
  (getTokenAmountVal decResult amount).map toString

/-! ## Contract addresses and constants (constants/contract.ts) -/

/-- `CONTRACT_ADDRESSES.AAVE`. -/
def AAVE : String := "0x5362dBb1e601abF3a4c14c22ffEdA64042E5eAA3"

/-- `CONTRACT_ADDRESSES.SILO` (the Silo router). -/
def SILO : String := "0x9Fa3C1E843d8eb1387827E5d77c07E8BB97B1e50"

/-- `CONTRACT_ADDRESSES.USDC_TOKEN`. -/
def USDC_TOKEN : String := "0x29219dd400f2Bf60E5a23d13Be72B486D4038894"

/-- `CONTRACT_ADDRESSES.B_USDC_TOKEN` (Silo's wrapped USDC). -/
def B_USDC_TOKEN : String := "0x322e1d5384aa4ED66AeCa770B95686271de61dc3"

/-- `SILO_COLLATERAL`. -/
def SILO_COLLATERAL : String := "1"

/-! ## Wallet operations (SonicSmartWallet) -/

/-- One prepared contract call, as handed to the wallet collaborator:
the target contract, the method and its ordered parameters, matching the
`prepareContractCall` / `approve` sites of the source. -/
inductive TxStep where
  /-- thirdweb `approve({contract: token, spender, amount})`. -/
  | approve (token spender amount : String)
  /-- Aave `supply(asset, amount, onBehalfOf, referralCode)`. -/
  | supply (pool asset amount onBehalfOf referralCode : String)
  /-- Aave `withdraw(asset, amount, to)`. -/
  | withdraw (pool asset amount recipient : String)
  /-- Silo router `multicall(data)` with a list of raw calldata blobs. -/
  | multicall (router : String) (data : List String)
  /-- bUSDC `redeem(shares, receiver, owner, collateral)`. -/
  | redeem (vault shares receiver owner collateral : String)
deriving DecidableEq, Repr

/-- One submission to the chain: `sendTransaction` (single) or
`sendBatchTransaction` (batch). -/
inductive Submission where
  | single (tx : TxStep)
  | batch (txs : List TxStep)
deriving DecidableEq, Repr

/-- The state of the external collaborators seen by one wallet operation:
initialization flags of the contract handles and the smart wallet, the
account, the results of the on-chain reads, and the ABI-encoding oracles
used by the three calldata generators (`none` models `encodeFunctionData`
throwing inside the generator's `try`). -/
structure WalletEnv where
  smartWalletInit : Bool
  usdcInit : Bool
  aaveInit : Bool
  siloInit : Bool
  hasAccount : Bool
  accountAddress : String
  /-- Result of the `decimals()` read on USDC inside `getTokenAmount`. -/
  usdcDecimalsResult : Option Nat
  /-- Result of `balanceOf(usdcContract, account)`. -/
  usdcBalanceResult : Option Int
  /-- Result of `balanceOf(siloBusdContract, account)`. -/
  busdcBalanceResult : Option Int
  encodeTransferFrom : String → String → String → Option String
  encodeApprove : String → String → String → Option String
  encodeDeposit : String → String → String → Option String

/-- The operator-visible line logged by `hasEnoughUSDC` when the balance
check fails (source lines 254–259): the required amount as given by the
caller and the available balance formatted at 6 decimals. -/
def insufficientUSDCMessage (amount : String) (balance : Int) : String :=
  "Insufficient USDC balance. Required: " ++ amount ++
    " USDC, Available: " ++ formatUnits balance 6 ++ " USDC"

/-- `SonicSmartWallet.hasEnoughUSDC`: converts the amount, reads the USDC
balance and compares as big integers.  Returns the boolean together with
the console lines it logged; `Except.error` models a thrown error (the
source's `catch` rethrows). -/
def hasEnoughUSDC (env : WalletEnv) (amount : String) :
    Except String (Bool × List String) :=
  if !(env.smartWalletInit && env.usdcInit) then
    Except.error "Smart wallet or USDC contract not initialized"
  else if !env.hasAccount then
    Except.error "Failed to get account from smart wallet"
  else
    match getTokenAmountVal env.usdcDecimalsResult amount with
    | none => Except.error "Error converting token amount"
    | some requiredAmount =>
      match env.usdcBalanceResult with
      | none => Except.error "Error reading USDC balance"
      | some balance =>
        if requiredAmount ≤ balance then Except.ok (true, [])
        else Except.ok (false, [insufficientUSDCMessage amount balance])

/-- `SonicSmartWallet.approveAndSupplyToAave`: balance guard first, then
initialization checks, then one atomic batch `[approve, supply]`.  The
first component collects every submission performed. -/
def approveAndSupplyToAave (env : WalletEnv) (amount : String) :
    List Submission × Except String Unit :=
  match hasEnoughUSDC env amount with
  | Except.error e => ([], Except.error e)
  | Except.ok (hasBalance, _) =>
    if !hasBalance then ([], Except.error "Insufficient USDC balance for Aave supply")
    else if !env.smartWalletInit then ([], Except.error "Smart wallet not initialized")
    else if !env.usdcInit then ([], Except.error "USDC contract not initialized")
    else if !env.aaveInit then ([], Except.error "Contract 1 not initialized")
    else if !env.hasAccount then ([], Except.error "Failed to get account from smart wallet")
    else
      match getTokenAmountVal env.usdcDecimalsResult amount with
      | none => ([], Except.error "Error converting token amount")
      | some v =>
        ([Submission.batch
            [TxStep.approve USDC_TOKEN AAVE (toString v),
             TxStep.supply AAVE USDC_TOKEN (toString v) env.accountAddress "0"]],
         Except.ok ())

/-- `SonicSmartWallet.withdrawFromAave`: a single `withdraw` call. -/
def withdrawFromAave (env : WalletEnv) (amount : String) :
    List Submission × Except String Unit :=
  if !env.smartWalletInit then ([], Except.error "Smart wallet not initialized")
  else if !env.aaveInit then ([], Except.error "Contract 1 not initialized")
  else if !env.hasAccount then ([], Except.error "Failed to get account from smart wallet")
  else
    match getTokenAmountVal env.usdcDecimalsResult amount with
    | none => ([], Except.error "Error converting token amount")
    | some v =>
      ([Submission.single
          (TxStep.withdraw AAVE USDC_TOKEN (toString v) env.accountAddress)],
       Except.ok ())

/-- `SonicSmartWallet.generateTransferFromCalldata`: on an encoding failure
the `catch` returns the empty-string marker. -/
def generateTransferFromCalldata (enc : String → String → String → Option String)
    (fromAddr toAddr amount : String) : String :=
  match enc fromAddr toAddr amount with
  | some data => data
  | none => ""

/-- `SonicSmartWallet.generateApproveCalldata`: on an encoding failure the
`catch` returns the empty-string marker. -/
def generateApproveCalldata (enc : String → String → String → Option String)
    (owner spender amount : String) : String :=
  match enc owner spender amount with
  | some data => data
  | none => ""

/-- `SonicSmartWallet.generateDepositCalldata`: on an encoding failure the
`catch` returns the empty-string marker. -/
def generateDepositCalldata (enc : String → String → String → Option String)
    (borrowedAsset amount collateral : String) : String :=
  match enc borrowedAsset amount collateral with
  | some data => data
  | none => ""

/-- `SonicSmartWallet.approveAndDepositToSilo`: balance guard first, then
initialization checks, then one atomic batch whose second step is a
`multicall` wrapping the three generated calldata blobs in push order
(transferFrom, approve, deposit).  The generated blobs are pushed without
any inspection — an empty-string marker flows straight into the batch. -/
def approveAndDepositToSilo (env : WalletEnv) (amount : String) :
    List Submission × Except String Unit :=
  match hasEnoughUSDC env amount with
  | Except.error e => ([], Except.error e)
  | Except.ok (hasBalance, _) =>
    if !hasBalance then ([], Except.error "Insufficient USDC balance for Silo deposit")
    else if !env.smartWalletInit then ([], Except.error "Smart wallet not initialized")
    else if !env.usdcInit then ([], Except.error "USDC contract not initialized")
    else if !env.siloInit then ([], Except.error "Contract 2 not initialized")
    else if !env.hasAccount then ([], Except.error "Failed to get account from smart wallet")
    else
      match getTokenAmountVal env.usdcDecimalsResult amount with
      | none => ([], Except.error "Error converting token amount")
      | some v =>
        let amountDecimals := toString v
        let transferFromCalldata :=
          generateTransferFromCalldata env.encodeTransferFrom USDC_TOKEN SILO amountDecimals
        let approveCalldata :=
          generateApproveCalldata env.encodeApprove USDC_TOKEN B_USDC_TOKEN amountDecimals
        let depositCalldata :=
          generateDepositCalldata env.encodeDeposit B_USDC_TOKEN amountDecimals SILO_COLLATERAL
        let finalCalldata := [transferFromCalldata, approveCalldata, depositCalldata]
        ([Submission.batch
            [TxStep.approve USDC_TOKEN SILO amountDecimals,
             TxStep.multicall SILO finalCalldata]],
         Except.ok ())

/-- `SonicSmartWallet.withdrawFromSilo`: takes no amount parameter; reads
the full bUSDC balance and submits a single `redeem(shares = full balance,
receiver = account, owner = account, SILO_COLLATERAL)` call. -/
def withdrawFromSilo (env : WalletEnv) : List Submission × Except String Unit :=
  if !env.smartWalletInit then ([], Except.error "Smart wallet not initialized")
  else if !env.siloInit then ([], Except.error "Contract 2 not initialized")
  else if !env.hasAccount then ([], Except.error "Failed to get account from smart wallet")
  else
    match env.busdcBalanceResult with
    | none => Except.error "Error reading bUSDC balance" |> Prod.mk []
    | some balanceResult =>
      let amountDecimals := toString balanceResult
      ([Submission.single
          (TxStep.redeem B_USDC_TOKEN amountDecimals env.accountAddress
            env.accountAddress SILO_COLLATERAL)],
       Except.ok ())

/-! ## Rotation loop (src/index.ts, `main`) -/

/-- One observable action of the rotation loop, in the order `main`
performs them on the successful path. -/
inductive LoopAction where
  | withdrawSilo
  | supplyAave (amount : String)
  | waitSeconds (n : Nat)
  | withdrawAave (amount : String)
  | depositSilo (amount : String)
deriving DecidableEq, Repr

/-- The body of `main`'s `for` loop at cycle index `i` (0-based): unwind
the Silo position first when `i > 0`, then supply to Aave, wait, withdraw
from Aave, wait, deposit to Silo, and wait again unless this is the last
cycle. -/
def cycleActions (i cycles : Nat) (amount : String) : List LoopAction :=
  (if 0 < i then [LoopAction.withdrawSilo] else []) ++
    LoopAction.supplyAave amount :: LoopAction.waitSeconds 15 ::
    LoopAction.withdrawAave amount :: LoopAction.waitSeconds 2 ::
    LoopAction.depositSilo amount ::
    (if i < cycles - 1 then [LoopAction.waitSeconds 15] else [])

/-- The full action trace of `main`'s loop on the successful path. -/
def rotationTrace (cycles : Nat) (amount : String) : List LoopAction :=
  (List.range cycles).flatMap (fun i => cycleActions i cycles amount)

/-- `main` with its literal configuration: `cycles = 10`, `AMOUNT = "1"`. -/
def mainTrace : List LoopAction := rotationTrace 10 "1"

/-- Protocol-touching actions (everything except the sleeps). -/
def isProtocolOp : LoopAction → Bool
  | LoopAction.waitSeconds _ => false
  | _ => true

/-! ## Concrete environments used by the witnesses -/

/-- A concretely successful ABI encoder: tags the call name and its three
arguments (standing in for `Interface.encodeFunctionData` succeeding). -/
def okEncode (tag : String) : String → String → String → Option String :=
  fun a b c => some (tag ++ "(" ++ a ++ "," ++ b ++ "," ++ c ++ ")")

/-- A fully initialized environment: 6-decimal USDC, the given USDC and
bUSDC balances, all encoders succeeding. -/
def stdEnv (usdcBal busdcBal : Int) : WalletEnv :=
  ⟨true, true, true, true, true, "0xACC", some 6, some usdcBal, some busdcBal,
    okEncode "transferFrom", okEncode "approve", okEncode "deposit"⟩

/-- A fully initialized, sufficiently funded environment in which the
`transferFrom` ABI encoding fails, so `generateTransferFromCalldata`
returns the empty-string marker. -/
def envC1 : WalletEnv :=
  ⟨true, true, true, true, true, "0xACC", some 6, some 2000000, some 0,
    fun _ _ _ => none, okEncode "approve", okEncode "deposit"⟩

/-- An environment with zero USDC balance whose Aave and Silo contract
handles are additionally uninitialized: the balance guard still runs (and
fails) before those initialization checks are ever reached. -/
def envC7 : WalletEnv :=
  ⟨true, true, false, false, true, "0xACC", some 6, some 0, some 0,
    okEncode "transferFrom", okEncode "approve", okEncode "deposit"⟩

/-- `beginsWith needle l`: `needle` is a prefix of `l`. -/
def beginsWith : List Char → List Char → Bool
  | [], _ => true
  | _ :: _, [] => false
  | a :: as, b :: bs => a == b && beginsWith as bs

/-- `containsSeq needle l`: `needle` occurs contiguously inside `l` (used
to state that a digit string does not appear in a logged message). -/
def containsSeq (needle : List Char) : List Char → Bool
  | [] => beginsWith needle []
  | c :: rest => beginsWith needle (c :: rest) || containsSeq needle rest

/-! ## Arithmetic lemmas about the digit-string machinery -/

theorem digitsToNat_foldl_acc (l : List Char) (a : Nat) :
    l.foldl (fun acc c => 10 * acc + digitVal c) a =
      a * 10 ^ l.length + l.foldl (fun acc c => 10 * acc + digitVal c) 0 := by
  induction l generalizing a with
  | nil => simp
  | cons c l ih =>
    simp only [List.foldl_cons, List.length_cons]
    rw [ih (10 * a + digitVal c), ih (10 * 0 + digitVal c)]
    ring

theorem digitsToNat_append (a b : List Char) :
    digitsToNat (a ++ b) = digitsToNat a * 10 ^ b.length + digitsToNat b := by
  unfold digitsToNat
  rw [List.foldl_append, digitsToNat_foldl_acc]

theorem digitsToNat_replicate_zero (n : Nat) :
    digitsToNat (List.replicate n '0') = 0 := by
  induction n with
  | zero => rfl
  | succ n ih =>
    unfold digitsToNat at ih ⊢
    rw [List.replicate_succ, List.foldl_cons]
    simpa [digitVal] using ih

/-- Scaling lemma: appending `P - |frac|` zero digits to `whole ++ frac`
multiplies the whole part by `10 ^ P` and the fractional digits by
`10 ^ (P - |frac|)`. -/
theorem digitsToNat_scale (whole frac : List Char) (P : Nat) (hf : frac.length ≤ P) :
    digitsToNat (whole ++ (frac ++ List.replicate (P - frac.length) '0')) =
      digitsToNat whole * 10 ^ P + digitsToNat frac * 10 ^ (P - frac.length) := by
  rw [digitsToNat_append, digitsToNat_append, digitsToNat_replicate_zero,
      List.length_append, List.length_replicate, Nat.add_sub_cancel' hf, Nat.add_zero]

/-- Claim C3 (amended): for every non-negative decimal-string amount that
matches the parsing regex, every precision `P ≤ 80` with at most `P`
fractional digits, and a scaled value inside the signed 512-bit range,
`getTokenAmount` with a successful decimals read of `P` returns exactly
`whole·10^P + frac·10^(P-|frac|)`, which as an exact rational equals
amount × 10^P — no floating-point arithmetic anywhere.  The claim as
frozen (all `P`) fails: see `C3_counterexample`. -/
theorem C3_conversion_exact (P : Nat) (amount : String) (body whole frac : List Char)
    (h1 : splitSign amount.data = (false, body))
    (h2 : decomposeBody body = some (whole, frac))
    (h3 : 0 < whole.length + frac.length)
    (hP : P ≤ 80)
    (hf : frac.length ≤ P)
    (hmag : digitsToNat (whole ++ (frac ++ List.replicate (P - frac.length) '0')) < 2 ^ 511) :
    getTokenAmountVal (some P) amount =
      some ((digitsToNat whole * 10 ^ P + digitsToNat frac * 10 ^ (P - frac.length) : Nat) : Int) ∧
    ((digitsToNat whole * 10 ^ P + digitsToNat frac * 10 ^ (P - frac.length) : ℚ)) =
      ((digitsToNat whole : ℚ) + (digitsToNat frac : ℚ) / 10 ^ frac.length) * 10 ^ P := by
  constructor
  · have hbeq : (whole.length + frac.length == 0) = false := by
      simp only [beq_eq_false_iff_ne, ne_eq]
      omega
    have hP' : ¬ (80 < P) := by omega
    have hf' : ¬ (P < frac.length) := by omega
    have hrange : -(2 ^ 511 : Int) ≤
          ((digitsToNat (whole ++ (frac ++ List.replicate (P - frac.length) '0')) : Nat) : Int) ∧
        ((digitsToNat (whole ++ (frac ++ List.replicate (P - frac.length) '0')) : Nat) : Int)
          < 2 ^ 511 := by
      constructor
      · have : (0 : Int) ≤ _ := Int.natCast_nonneg
          (digitsToNat (whole ++ (frac ++ List.replicate (P - frac.length) '0')))
        omega
      · exact_mod_cast hmag
    simp only [getTokenAmountVal, parseUnits, h1, h2, hbeq, if_false,
      if_neg hP', if_neg hf', if_pos, Bool.false_eq_true, if_true, hrange, and_self]
    rw [digitsToNat_scale whole frac P hf]
  · have h10 : (10 : ℚ) ^ frac.length ≠ 0 := pow_ne_zero _ (by norm_num)
    have hsplit : (10 : ℚ) ^ P = 10 ^ (P - frac.length) * 10 ^ frac.length := by
      rw [← pow_add, Nat.sub_add_cancel hf]
    rw [add_mul, div_mul_eq_mul_div, hsplit]
    field_simp
    ring

/-- Witness for C3: amount `"1.50"` (trailing zero) at precision 6 converts
to exactly `1500000 = (1 + 50/100) · 10^6`. -/
theorem C3_conversion_exact_witness :
    (getTokenAmountVal (some 6) "1.50" =
      some ((digitsToNat ['1'] * 10 ^ 6 + digitsToNat ['5', '0'] * 10 ^ 4 : Nat) : Int) ∧
    ((digitsToNat ['1'] * 10 ^ 6 + digitsToNat ['5', '0'] * 10 ^ 4 : ℚ)) =
      ((digitsToNat ['1'] : ℚ) + (digitsToNat ['5', '0'] : ℚ) / 10 ^ 2) * 10 ^ 6) ∧
    getTokenAmountVal (some 6) "1.50" = some 1500000 :=
  ⟨C3_conversion_exact 6 "1.50" "1.50".data ['1'] ['5', '0'] (by decide) (by decide)
      (by decide) (by decide) (by decide) (by decide),
    by decide⟩

/-- Claim C3 counterexample: a token whose decimals read succeeds with
`P = 81` (ethers v6 `FixedNumber` rejects formats beyond 80 decimals, so
the conversion silently falls back to 6 decimals) converts `"1"` to
`1000000`, not to `1 × 10^81` as the claim requires for every `P`. -/
theorem C3_counterexample :
    getTokenAmountVal (some 81) "1" = some 1000000 ∧ (1000000 : Int) ≠ 10 ^ 81 := by
  constructor
  · decide
  · decide

/-- Claim C4: the claim demands rejection whenever the amount has more
fractional digits than the token's precision `P`.  The code violates it
when `P < 6`: `parseUnits(amount, P)` throws, the `catch` in
`getTokenAmount` swallows the error and retries at the fallback precision
6, silently returning a value scaled by `10^6` instead of rejecting.
Here `P = 2` and amount `"0.123"` yield `123000 = 0.123 × 10^6`,
a value scaled by a different precision than the token's. -/
theorem C4_silent_fallback :
    getTokenAmountVal (some 2) "0.123" = some 123000 ∧
    ((123000 : ℚ) = (123 / 10 ^ 3) * 10 ^ 6) := by
  constructor
  · decide
  · norm_num

/-- Claim C1: the claim requires that an encoder returning the
empty-string marker prevents batch submission.  The code violates it:
with the `transferFrom` encoding failing (marker `""`),
`approveAndDepositToSilo` still submits the two-step batch, with the empty
string as the first multicall payload. -/
theorem C1_empty_marker_still_submitted :
    approveAndDepositToSilo envC1 "1" =
      ([Submission.batch
          [TxStep.approve USDC_TOKEN SILO "1000000",
           TxStep.multicall SILO
             ["",
              "approve(" ++ USDC_TOKEN ++ "," ++ B_USDC_TOKEN ++ ",1000000)",
              "deposit(" ++ B_USDC_TOKEN ++ ",1000000," ++ SILO_COLLATERAL ++ ")"]]],
       Except.ok ()) := by
  rfl

/-- Claim C2: whenever `approveAndDepositToSilo` succeeds, the submitted
batch is exactly two top-level steps — an `approve` of the Silo router
followed by a `multicall` on the router — and the multicall's parameter
list is exactly the three generated payloads in the fixed order
transferFrom, approve, deposit. -/
theorem C2_silo_batch_shape (env : WalletEnv) (amount : String)
    (subs : List Submission)
    (h : approveAndDepositToSilo env amount = (subs, Except.ok ())) :
    ∃ v : Int, getTokenAmountVal env.usdcDecimalsResult amount = some v ∧
      subs = [Submission.batch
        [TxStep.approve USDC_TOKEN SILO (toString v),
         TxStep.multicall SILO
           [generateTransferFromCalldata env.encodeTransferFrom USDC_TOKEN SILO (toString v),
            generateApproveCalldata env.encodeApprove USDC_TOKEN B_USDC_TOKEN (toString v),
            generateDepositCalldata env.encodeDeposit B_USDC_TOKEN (toString v) SILO_COLLATERAL]]] := by
  unfold approveAndDepositToSilo at h
  repeat' split at h
  all_goals simp_all

/-- Witness for C2: a funded, fully initialized environment deposits
`"1"` and the submitted batch has the stated two-step / three-payload
shape. -/
theorem C2_silo_batch_shape_witness :
    ∃ v : Int, getTokenAmountVal (stdEnv 2000000 0).usdcDecimalsResult "1" = some v ∧
      [Submission.batch
        [TxStep.approve USDC_TOKEN SILO "1000000",
         TxStep.multicall SILO
           ["transferFrom(" ++ USDC_TOKEN ++ "," ++ SILO ++ ",1000000)",
            "approve(" ++ USDC_TOKEN ++ "," ++ B_USDC_TOKEN ++ ",1000000)",
            "deposit(" ++ B_USDC_TOKEN ++ ",1000000," ++ SILO_COLLATERAL ++ ")"]]] =
      [Submission.batch
        [TxStep.approve USDC_TOKEN SILO (toString v),
         TxStep.multicall SILO
           [generateTransferFromCalldata (stdEnv 2000000 0).encodeTransferFrom USDC_TOKEN SILO (toString v),
            generateApproveCalldata (stdEnv 2000000 0).encodeApprove USDC_TOKEN B_USDC_TOKEN (toString v),
            generateDepositCalldata (stdEnv 2000000 0).encodeDeposit B_USDC_TOKEN (toString v) SILO_COLLATERAL]]] :=
  C2_silo_batch_shape (stdEnv 2000000 0) "1" _ rfl

/-- Claim C5: with the wallet initialized, a successful conversion to
`required` and a successful balance read of `balance`, `hasEnoughUSDC`
returns `false` (with the insufficiency log) exactly when
`balance < required` and `true` exactly when `required ≤ balance` — an
exact integer comparison. -/
theorem C5_balance_guard (env : WalletEnv) (amount : String) (required balance : Int)
    (hw : env.smartWalletInit = true) (hu : env.usdcInit = true)
    (ha : env.hasAccount = true)
    (hconv : getTokenAmountVal env.usdcDecimalsResult amount = some required)
    (hbal : env.usdcBalanceResult = some balance) :
    (hasEnoughUSDC env amount =
        Except.ok (false, [insufficientUSDCMessage amount balance]) ↔ balance < required) ∧
    (hasEnoughUSDC env amount = Except.ok (true, []) ↔ required ≤ balance) := by
  unfold hasEnoughUSDC
  rw [hw, hu, ha, hconv, hbal]
  by_cases hc : required ≤ balance <;> simp [hc] <;> omega

/-- Witness for C5: balance 999999 against required 1000000 gives `false`;
balance 1000000 against required 1000000 gives `true`. -/
theorem C5_balance_guard_witness :
    ((hasEnoughUSDC (stdEnv 999999 0) "1" =
        Except.ok (false, [insufficientUSDCMessage "1" 999999]) ↔ (999999 : Int) < 1000000) ∧
     (hasEnoughUSDC (stdEnv 999999 0) "1" = Except.ok (true, []) ↔ (1000000 : Int) ≤ 999999)) ∧
    ((hasEnoughUSDC (stdEnv 1000000 0) "1" =
        Except.ok (false, [insufficientUSDCMessage "1" 1000000]) ↔ (1000000 : Int) < 1000000) ∧
     (hasEnoughUSDC (stdEnv 1000000 0) "1" = Except.ok (true, []) ↔ (1000000 : Int) ≤ 1000000)) :=
  ⟨C5_balance_guard (stdEnv 999999 0) "1" 1000000 999999 rfl rfl rfl (by decide) rfl,
   C5_balance_guard (stdEnv 1000000 0) "1" 1000000 1000000 rfl rfl rfl (by decide) rfl⟩

/-- Claim C6 counterexample: with required base units 1000000 (amount
`"1"`) and balance 250000, the shortfall in human units is `"0.75"`, but
the guard's observable output reports `"0.25"` — the *available* balance —
and the string `"0.75"` appears nowhere in it.  The code reports the
required amount and the available balance, never required − available. -/
theorem C6_counterexample :
    hasEnoughUSDC (stdEnv 250000 0) "1" =
      Except.ok (false,
        ["Insufficient USDC balance. Required: 1 USDC, Available: 0.25 USDC"]) ∧
    formatUnits (1000000 - 250000) 6 = "0.75" ∧
    containsSeq "0.75".data
      ("Insufficient USDC balance. Required: 1 USDC, Available: 0.25 USDC").data = false := by
  refine ⟨by rfl, by decide, by decide⟩

/-- Claim C6 (amended): when the guard fails for insufficient funds, its
observable output reports the required amount exactly as the caller gave
it and the available balance formatted at 6 decimals — not the shortfall.
In the spec's example (required 1000000, balance 500000) the reported
available balance happens to equal the shortfall, `"0.5"`. -/
theorem C6_reported_values (env : WalletEnv) (amount : String) (required balance : Int)
    (hw : env.smartWalletInit = true) (hu : env.usdcInit = true)
    (ha : env.hasAccount = true)
    (hconv : getTokenAmountVal env.usdcDecimalsResult amount = some required)
    (hbal : env.usdcBalanceResult = some balance)
    (hlt : balance < required) :
    hasEnoughUSDC env amount =
      Except.ok (false,
        ["Insufficient USDC balance. Required: " ++ amount ++
          " USDC, Available: " ++ formatUnits balance 6 ++ " USDC"]) := by
  unfold hasEnoughUSDC insufficientUSDCMessage
  rw [hw, hu, ha, hconv, hbal]
  simp [not_le.mpr hlt]

/-- Witness for the amended C6: required `"1"` (1000000 base units)
against balance 500000 logs availability `"0.5"`. -/
theorem C6_reported_values_witness :
    hasEnoughUSDC (stdEnv 500000 0) "1" =
      Except.ok (false,
        ["Insufficient USDC balance. Required: " ++ "1" ++
          " USDC, Available: " ++ formatUnits 500000 6 ++ " USDC"]) ∧
    formatUnits 500000 6 = "0.5" :=
  ⟨C6_reported_values (stdEnv 500000 0) "1" 1000000 500000 rfl rfl rfl (by decide) rfl
      (by decide),
   by decide⟩

/-- Claim C7: whenever the balance guard returns `false`, both
capital-committing operations raise their insufficient-funds error and
submit nothing — regardless of the rest of the environment, because the
guard is the first thing either operation evaluates. -/
theorem C7_guard_first (env : WalletEnv) (amount : String) (logs : List String)
    (h : hasEnoughUSDC env amount = Except.ok (false, logs)) :
    approveAndSupplyToAave env amount =
      ([], Except.error "Insufficient USDC balance for Aave supply") ∧
    approveAndDepositToSilo env amount =
      ([], Except.error "Insufficient USDC balance for Silo deposit") := by
  unfold approveAndSupplyToAave approveAndDepositToSilo
  rw [h]
  simp

/-- Witness for C7: a zero-balance environment whose Aave and Silo
handles are even uninitialized still fails with the insufficient-funds
error and no submission — the guard runs first. -/
theorem C7_guard_first_witness :
    approveAndSupplyToAave envC7 "1" =
      ([], Except.error "Insufficient USDC balance for Aave supply") ∧
    approveAndDepositToSilo envC7 "1" =
      ([], Except.error "Insufficient USDC balance for Silo deposit") :=
  C7_guard_first envC7 "1" [insufficientUSDCMessage "1" 0] (by rfl)

/-- Claim C8: `withdrawFromSilo` takes no amount argument (see its
signature); on every successful run the single submission is
`redeem(shares = the full bUSDC balance just read, receiver = account,
owner = account, SILO_COLLATERAL)`. -/
theorem C8_full_balance_redeem (env : WalletEnv) (subs : List Submission)
    (h : withdrawFromSilo env = (subs, Except.ok ())) :
    ∃ bal : Int, env.busdcBalanceResult = some bal ∧
      subs = [Submission.single
        (TxStep.redeem B_USDC_TOKEN (toString bal) env.accountAddress
          env.accountAddress SILO_COLLATERAL)] := by
  unfold withdrawFromSilo at h
  repeat' split at h
  all_goals simp_all

/-- Witness for C8: with a bUSDC balance of 123456 the operation redeems
exactly those 123456 shares to and for the account. -/
theorem C8_full_balance_redeem_witness :
    ∃ bal : Int, (stdEnv 0 123456).busdcBalanceResult = some bal ∧
      [Submission.single
        (TxStep.redeem B_USDC_TOKEN "123456" "0xACC" "0xACC" SILO_COLLATERAL)] =
      [Submission.single
        (TxStep.redeem B_USDC_TOKEN (toString bal) (stdEnv 0 123456).accountAddress
          (stdEnv 0 123456).accountAddress SILO_COLLATERAL)] :=
  C8_full_balance_redeem (stdEnv 0 123456) _ rfl

/-- Claim C9: in the rotation loop, cycle 0 performs no withdraw-from-Silo
at all (in particular none before its first deposit); every cycle with
index `i > 0` performs it as its very first action; and the
protocol-touching actions of any cycle are, in order: the unwind (iff
`i > 0`), supply to Aave, withdraw from Aave, deposit to Silo. -/
theorem C9_cycle_order (i cycles : Nat) (amount : String) (hi : i < cycles) :
    (i = 0 → LoopAction.withdrawSilo ∉ cycleActions i cycles amount) ∧
    (0 < i → (cycleActions i cycles amount).head? = some LoopAction.withdrawSilo) ∧
    (cycleActions i cycles amount).filter isProtocolOp =
      (if 0 < i then [LoopAction.withdrawSilo] else []) ++
        [LoopAction.supplyAave amount, LoopAction.withdrawAave amount,
         LoopAction.depositSilo amount] := by
  unfold cycleActions
  refine ⟨?_, ?_, ?_⟩
  · intro h0
    subst h0
    rw [if_neg (by omega : ¬ (0 : Nat) < 0)]
    split <;> simp
  · intro hp
    simp [hp]
  · by_cases hp : 0 < i <;> by_cases hq : i < cycles - 1 <;>
      simp [hp, hq, isProtocolOp]

/-- Witness for C9 at `main`'s configuration (`cycles = 10`,
`AMOUNT = "1"`): cycle 0 contains no unwind, cycle 3 starts with one, and
both cycles' protocol actions are in the mandated order. -/
theorem C9_cycle_order_witness :
    ((0 = 0 → LoopAction.withdrawSilo ∉ cycleActions 0 10 "1") ∧
     (0 < 0 → (cycleActions 0 10 "1").head? = some LoopAction.withdrawSilo) ∧
     (cycleActions 0 10 "1").filter isProtocolOp =
       (if 0 < 0 then [LoopAction.withdrawSilo] else []) ++
         [LoopAction.supplyAave "1", LoopAction.withdrawAave "1",
          LoopAction.depositSilo "1"]) ∧
    ((3 = 0 → LoopAction.withdrawSilo ∉ cycleActions 3 10 "1") ∧
     (0 < 3 → (cycleActions 3 10 "1").head? = some LoopAction.withdrawSilo) ∧
     (cycleActions 3 10 "1").filter isProtocolOp =
       (if 0 < 3 then [LoopAction.withdrawSilo] else []) ++
         [LoopAction.supplyAave "1", LoopAction.withdrawAave "1",
          LoopAction.depositSilo "1"]) :=
  ⟨C9_cycle_order 0 10 "1" (by decide), C9_cycle_order 3 10 "1" (by decide)⟩

/-- Claim C10: with the wallet initialized and a bUSDC balance of zero,
`withdrawFromSilo` neither skips nor raises a no-position error: it
submits a single `redeem` with shares `"0"`, receiver = owner = account. -/
theorem C10_zero_balance_redeem (env : WalletEnv)
    (hw : env.smartWalletInit = true) (hs : env.siloInit = true)
    (ha : env.hasAccount = true)
    (hbal : env.busdcBalanceResult = some 0) :
    withdrawFromSilo env =
      ([Submission.single
          (TxStep.redeem B_USDC_TOKEN "0" env.accountAddress
            env.accountAddress SILO_COLLATERAL)],
       Except.ok ()) := by
  unfold withdrawFromSilo
  rw [hw, hs, ha, hbal]
  rfl

/-- Witness for C10: the zero-balance environment submits
`redeem("0", account, account, "1")` successfully. -/
theorem C10_zero_balance_redeem_witness :
    withdrawFromSilo (stdEnv 0 0) =
      ([Submission.single
          (TxStep.redeem B_USDC_TOKEN "0" (stdEnv 0 0).accountAddress
            (stdEnv 0 0).accountAddress SILO_COLLATERAL)],
       Except.ok ()) :=
  C10_zero_balance_redeem (stdEnv 0 0) rfl rfl rfl rfl
